import Mathlib

/-!
Shallow embedding of `src/volumiwled.py` (VolumiWLED: a Volumio-to-WLED
LED bridge).  Times (`seek`, `duration`) are modelled as rationals, the
rotation effect's `math.sin` as `Real.sin`, Python `int()` truncation as
truncation toward zero, and Python `%` on integers as `Int.emod` (both are
nonnegative for a positive modulus).  Commands sent to the WLED client are
recorded as a trace; the client's boolean results are supplied by an
environment function `env`.
-/

/-- An RGB color: three Python integers. -/
abbrev RGB := ℤ × ℤ × ℤ

/-- Commands issued to the WLED client (`WLEDClient.set_state`,
`WLEDClient.set_segment`, `WLEDClient.set_individual_leds`). -/
inductive Cmd where
  | setState (isOn : Bool) (brightness : Option ℕ)
  | setSegment (start stop : ℕ) (color : RGB)
  | setIndividualLeds (data : List (ℕ × RGB))
deriving DecidableEq

/-- `WLEDClient.clear_leds`: a segment command painting `[0, led_count)` black. -/
def clear_leds (led_count : ℕ) : Cmd :=
  Cmd.setSegment 0 led_count (0, 0, 0)

/-- The configuration keys the render core reads. -/
structure Config where
  led_count : ℕ
  brightness : ℕ
  progress_enabled : Bool
  progress_color : RGB
  vinyl_enabled : Bool
  vinyl_color : RGB
  vinyl_speed : ℚ
  update_interval : ℚ
deriving DecidableEq

/-- A successful Volumio poll result; each field is optional because the
loop reads it with `state.get(key, default)`. -/
structure PlayerState where
  status : Option String
  seek : Option ℚ
  duration : Option ℚ
deriving DecidableEq

/-- The loop's mutable state: `EffectManager.rotation_offset` and
`VolumiWLED.previous_status`. -/
structure LoopState where
  rotation_offset : ℕ
  previous_status : Option String
deriving DecidableEq

/-- Python `int()` on a rational: truncation toward zero. -/
def pyTrunc (q : ℚ) : ℤ :=
  if 0 ≤ q then ⌊q⌋ else ⌈q⌉

/-- `leds_to_light = int(self.led_count * min(progress / duration, 1.0))`
from `EffectManager.apply_progress_bar`. -/
def leds_to_light (led_count : ℕ) (progress duration : ℚ) : ℤ :=
  pyTrunc ((led_count : ℚ) * min (progress / duration) 1)

/-- The per-LED data built by `apply_progress_bar`: entry `i` is
`(i, color)` when `i < leds_to_light`, else `(i, 0, 0, 0)`. -/
def progressLedData (led_count : ℕ) (color : RGB) (progress duration : ℚ) :
    List (ℕ × RGB) :=
  (List.range led_count).map fun (i : ℕ) =>
    if (i : ℤ) < leds_to_light led_count progress duration then (i, color)
    else (i, (0, 0, 0))

/-- `EffectManager.apply_progress_bar`: returns `False` at once when
`duration <= 0`, otherwise sends the progress frame with
`set_individual_leds` and returns that call's result. -/
def apply_progress_bar (env : Cmd → Bool) (led_count : ℕ) (color : RGB)
    (progress duration : ℚ) : Bool × List Cmd :=
  if duration ≤ 0 then (false, [])
  else
    (env (Cmd.setIndividualLeds (progressLedData led_count color progress duration)),
     [Cmd.setIndividualLeds (progressLedData led_count color progress duration)])

/-- Python `int()` on a real: truncation toward zero. -/
noncomputable def pyTruncR (x : ℝ) : ℤ :=
  if 0 ≤ x then ⌊x⌋ else ⌈x⌉

/-- `intensity = (math.sin(angle) + 1) / 2` with
`angle = (pos / led_count) * 2 * math.pi * 4` from
`EffectManager.apply_vinyl_rotation`. -/
noncomputable def vinylIntensity (led_count : ℕ) (pos : ℤ) : ℝ :=
  (Real.sin ((pos : ℝ) / (led_count : ℝ) * 2 * Real.pi * 4) + 1) / 2

/-- One output channel of the rotation effect: `int(c * intensity)`. -/
noncomputable def vinylChannel (c : ℤ) (intensity : ℝ) : ℤ :=
  pyTruncR ((c : ℝ) * intensity)

/-- The per-LED data built by `apply_vinyl_rotation` for a given (already
advanced) rotation offset: `pos = (i - offset) % led_count` and each
channel is scaled by the sinusoidal intensity at `pos`. -/
noncomputable def vinylLedData (led_count rotation_offset : ℕ) (color : RGB) :
    List (ℕ × RGB) :=
  (List.range led_count).map fun i =>
    (i, (vinylChannel color.1
           (vinylIntensity led_count (((i : ℤ) - (rotation_offset : ℤ)) % (led_count : ℤ))),
         vinylChannel color.2.1
           (vinylIntensity led_count (((i : ℤ) - (rotation_offset : ℤ)) % (led_count : ℤ))),
         vinylChannel color.2.2
           (vinylIntensity led_count (((i : ℤ) - (rotation_offset : ℤ)) % (led_count : ℤ)))))

/-- `EffectManager.apply_vinyl_rotation`: when not playing it just clears
the LEDs; when playing it first advances `rotation_offset` by one modulo
`led_count`, then sends the sinusoidal frame.  Returns the new offset, the
boolean result, and the commands issued. -/
noncomputable def apply_vinyl_rotation (env : Cmd → Bool) (led_count : ℕ) (color : RGB)
    (is_playing : Bool) (rotation_offset : ℕ) : ℕ × Bool × List Cmd :=
  if !is_playing then
    (rotation_offset, env (clear_leds led_count), [clear_leds led_count])
  else
    ((rotation_offset + 1) % led_count,
     env (Cmd.setIndividualLeds (vinylLedData led_count ((rotation_offset + 1) % led_count) color)),
     [Cmd.setIndividualLeds (vinylLedData led_count ((rotation_offset + 1) % led_count) color)])

/-- The status-change bookkeeping at the top of each loop iteration:
`if status != self.previous_status: self.previous_status = status`. -/
def recordStatus (s : LoopState) (status : String) : LoopState :=
  if s.previous_status = some status then s
  else { s with previous_status := some status }

/-- One iteration of `VolumiWLED.run`'s while loop, from a poll result to
the next loop state and the trace of commands dispatched.  A failed poll
(`none`) sleeps and retries, touching nothing. -/
noncomputable def tick (env : Cmd → Bool) (cfg : Config) (s : LoopState)
    (poll : Option PlayerState) : LoopState × List Cmd :=
  match poll with
  | none => (s, [])
  | some st =>
    let status := st.status.getD "stop"
    let s1 := recordStatus s status
    if status = "play" then
      let seek := st.seek.getD 0 / 1000
      let duration := st.duration.getD 0
      if cfg.progress_enabled ∧ 0 < duration then
        (s1, (apply_progress_bar env cfg.led_count cfg.progress_color seek duration).2)
      else if cfg.vinyl_enabled then
        let r := apply_vinyl_rotation env cfg.led_count cfg.vinyl_color true s1.rotation_offset
        ({ s1 with rotation_offset := r.1 }, r.2.2)
      else
        (s1, [])
    else if status = "pause" then
      let seek := st.seek.getD 0 / 1000
      let duration := st.duration.getD 0
      if cfg.progress_enabled ∧ 0 < duration then
        (s1, (apply_progress_bar env cfg.led_count cfg.progress_color seek duration).2)
      else
        (s1, [Cmd.setState true (some (cfg.brightness / 4))])
    else if status = "stop" then
      (s1, [clear_leds cfg.led_count])
    else
      (s1, [])

lemma recordStatus_rotation_offset (s : LoopState) (status : String) :
    (recordStatus s status).rotation_offset = s.rotation_offset := by
  unfold recordStatus
  split <;> rfl

lemma pyTrunc_of_nonneg (q : ℚ) (h : 0 ≤ q) : pyTrunc q = ⌊q⌋ := by
  simp [pyTrunc, h]

lemma leds_to_light_eq_floor_clamp (led_count : ℕ) (e d : ℚ)
    (he : 0 ≤ e) (hd : 0 < d) :
    leds_to_light led_count e d = ⌊(led_count : ℚ) * max 0 (min (e / d) 1)⌋ := by
  have h0 : (0 : ℚ) ≤ min (e / d) 1 := le_min (div_nonneg he hd.le) zero_le_one
  have hmax : max 0 (min (e / d) 1) = min (e / d) 1 := max_eq_right h0
  rw [leds_to_light, hmax, pyTrunc_of_nonneg]
  exact mul_nonneg (Nat.cast_nonneg led_count) h0

/-- Claim C10: for every elapsed value and every `duration <= 0`, the
progress renderer returns `False` immediately, dispatching no command to
the WLED client (and, being a pure early return, mutating no state). -/
theorem progress_bar_rejects_nonpositive_duration (env : Cmd → Bool)
    (led_count : ℕ) (color : RGB) (progress duration : ℚ)
    (hd : duration ≤ 0) :
    apply_progress_bar env led_count color progress duration = (false, []) := by
  simp [apply_progress_bar, hd]

/-- Witness for C10 at `duration = 0`, `progress = 5`. -/
theorem progress_bar_rejects_nonpositive_duration_witness :
    (0 : ℚ) ≤ 0 ∧
      apply_progress_bar (fun _ => true) 10 (255, 0, 0) 5 0 = (false, []) :=
  ⟨by decide,
   progress_bar_rejects_nonpositive_duration (fun _ => true) 10 (255, 0, 0) 5 0 (by decide)⟩

/-- Claim C5: a failed poll leaves the loop state (rotation offset and
previous status) unchanged and dispatches no command; the loop just waits
for the next tick. -/
theorem poll_failure_leaves_state_unchanged (env : Cmd → Bool) (cfg : Config)
    (s : LoopState) :
    tick env cfg s none = (s, []) := by
  rfl

/-- Claim C1: for every `elapsed >= 0`, `duration > 0`, `led_count >= 1`
and every color, the progress frame has one entry per LED, index `i`
getting `color` exactly when `i < floor(led_count * clamp(elapsed/duration, 0, 1))`
and `(0,0,0)` otherwise. -/
theorem progress_frame_spec (led_count : ℕ) (color : RGB) (e d : ℚ)
    (_hn : 1 ≤ led_count) (he : 0 ≤ e) (hd : 0 < d) :
    (progressLedData led_count color e d).length = led_count ∧
    ∀ i < led_count, (progressLedData led_count color e d)[i]? =
      some (i, if (i : ℤ) < ⌊(led_count : ℚ) * max 0 (min (e / d) 1)⌋ then color
        else (0, 0, 0)) := by
  refine ⟨by simp [progressLedData], fun i hi => ?_⟩
  rw [← leds_to_light_eq_floor_clamp led_count e d he hd]
  by_cases h : (i : ℤ) < leds_to_light led_count e d <;>
    simp [progressLedData, List.getElem?_range, hi, h]

/-- Witness for C1 at the spec's worked scenario:
`led_count = 10`, `elapsed = 50`, `duration = 200`, `color = (10,20,30)`. -/
theorem progress_frame_spec_witness :
    1 ≤ 10 ∧ (0 : ℚ) ≤ 50 ∧ (0 : ℚ) < 200 ∧
    ((progressLedData 10 (10, 20, 30) 50 200).length = 10 ∧
      ∀ i : ℕ, i < 10 → (progressLedData 10 (10, 20, 30) 50 200)[i]? =
        some (i, if (i : ℤ) < ⌊(10 : ℚ) * max 0 (min ((50 : ℚ) / 200) 1)⌋ then (10, 20, 30)
          else (0, 0, 0))) :=
  ⟨by decide, by decide, by decide,
   progress_frame_spec 10 (10, 20, 30) 50 200 (by decide) (by decide) (by decide)⟩

/-- Claim C2: both renderers build complete frames: exactly `led_count`
entries, entry `i` carrying index `i` (indices unique, dense and in
order); no partial frame exists. -/
theorem renderer_frames_complete (led_count : ℕ) (pc vc : RGB) (e d : ℚ)
    (rotation_offset : ℕ) (_hn : 1 ≤ led_count) (_hd : 0 < d) :
    ((progressLedData led_count pc e d).length = led_count ∧
      ∀ i < led_count, ((progressLedData led_count pc e d)[i]?).map Prod.fst = some i) ∧
    ((vinylLedData led_count rotation_offset vc).length = led_count ∧
      ∀ i < led_count, ((vinylLedData led_count rotation_offset vc)[i]?).map Prod.fst = some i) := by
  refine ⟨⟨by simp [progressLedData], fun i hi => ?_⟩,
    ⟨by simp [vinylLedData], fun i hi => ?_⟩⟩
  · by_cases h : (i : ℤ) < leds_to_light led_count e d <;>
      simp [progressLedData, List.getElem?_range, hi, h]
  · simp [vinylLedData, List.getElem?_range, hi]

/-- Witness for C2 at `led_count = 3`. -/
theorem renderer_frames_complete_witness :
    1 ≤ 3 ∧ (0 : ℚ) < 1 ∧
    (((progressLedData 3 (1, 2, 3) 0 1).length = 3 ∧
        ∀ i : ℕ, i < 3 → ((progressLedData 3 (1, 2, 3) 0 1)[i]?).map Prod.fst = some i) ∧
      ((vinylLedData 3 2 (4, 5, 6)).length = 3 ∧
        ∀ i : ℕ, i < 3 → ((vinylLedData 3 2 (4, 5, 6))[i]?).map Prod.fst = some i)) :=
  ⟨by decide, by decide,
   renderer_frames_complete 3 (1, 2, 3) (4, 5, 6) 0 1 2 (by decide) (by decide)⟩

/-- Claim C8: with `duration > 0` fixed, the number of lit LEDs computed
by the progress renderer is monotone in `elapsed` on `[0, duration]`. -/
theorem leds_to_light_monotone (led_count : ℕ) (e1 e2 d : ℚ)
    (hd : 0 < d) (h0 : 0 ≤ e1) (h12 : e1 ≤ e2) (_h2d : e2 ≤ d) :
    leds_to_light led_count e1 d ≤ leds_to_light led_count e2 d := by
  have h1 : (0 : ℚ) ≤ min (e1 / d) 1 := le_min (div_nonneg h0 hd.le) zero_le_one
  have hm : min (e1 / d) 1 ≤ min (e2 / d) 1 :=
    min_le_min ((div_le_div_iff_of_pos_right hd).mpr h12) le_rfl
  unfold leds_to_light
  rw [pyTrunc_of_nonneg _ (mul_nonneg (Nat.cast_nonneg _) h1),
    pyTrunc_of_nonneg _ (mul_nonneg (Nat.cast_nonneg _) (le_trans h1 hm))]
  exact Int.floor_le_floor (mul_le_mul_of_nonneg_left hm (Nat.cast_nonneg led_count))

/-- Witness for C8 at `e1 = 50`, `e2 = 100`, `d = 200`, `led_count = 10`. -/
theorem leds_to_light_monotone_witness :
    (0 : ℚ) < 200 ∧ (0 : ℚ) ≤ 50 ∧ (50 : ℚ) ≤ 100 ∧ (100 : ℚ) ≤ 200 ∧
    leds_to_light 10 50 200 ≤ leds_to_light 10 100 200 :=
  ⟨by decide, by decide, by decide, by decide,
   leds_to_light_monotone 10 50 100 200 (by decide) (by decide) (by decide) (by decide)⟩

lemma vinylIntensity_nonneg (led_count : ℕ) (pos : ℤ) :
    0 ≤ vinylIntensity led_count pos := by
  unfold vinylIntensity
  have h := Real.neg_one_le_sin ((pos : ℝ) / (led_count : ℝ) * 2 * Real.pi * 4)
  linarith

lemma vinylIntensity_le_one (led_count : ℕ) (pos : ℤ) :
    vinylIntensity led_count pos ≤ 1 := by
  unfold vinylIntensity
  have h := Real.sin_le_one ((pos : ℝ) / (led_count : ℝ) * 2 * Real.pi * 4)
  linarith

lemma vinylChannel_bounds (c : ℤ) (x : ℝ) (hc0 : 0 ≤ c) (hc1 : c ≤ 255)
    (hx0 : 0 ≤ x) (hx1 : x ≤ 1) :
    0 ≤ vinylChannel c x ∧ vinylChannel c x ≤ 255 := by
  have hcx0 : (0 : ℝ) ≤ (c : ℝ) * x := mul_nonneg (by exact_mod_cast hc0) hx0
  unfold vinylChannel pyTruncR
  rw [if_pos hcx0]
  refine ⟨Int.floor_nonneg.mpr hcx0, ?_⟩
  have hcx : (c : ℝ) * x ≤ ((255 : ℤ) : ℝ) := by
    have h1 : (c : ℝ) * x ≤ (c : ℝ) * 1 :=
      mul_le_mul_of_nonneg_left hx1 (by exact_mod_cast hc0)
    have h2 : (c : ℝ) ≤ 255 := by exact_mod_cast hc1
    push_cast
    linarith
  have h := Int.floor_le_floor hcx
  simpa using h

/-- Claim C7: for every phase, `led_count >= 1` and a color with all three
channels in `[0,255]`, every channel the rotation renderer outputs stays
in `[0,255]`: each channel is the input channel scaled by the sinusoidal
intensity and truncated, and the result never leaves the byte range. -/
theorem vinyl_channels_in_range (led_count rotation_offset : ℕ) (color : RGB)
    (_hn : 1 ≤ led_count)
    (hr : 0 ≤ color.1 ∧ color.1 ≤ 255) (hg : 0 ≤ color.2.1 ∧ color.2.1 ≤ 255)
    (hb : 0 ≤ color.2.2 ∧ color.2.2 ≤ 255) :
    ∀ p ∈ vinylLedData led_count rotation_offset color,
      (0 ≤ p.2.1 ∧ p.2.1 ≤ 255) ∧ (0 ≤ p.2.2.1 ∧ p.2.2.1 ≤ 255) ∧
        (0 ≤ p.2.2.2 ∧ p.2.2.2 ≤ 255) := by
  intro p hp
  rw [vinylLedData, List.mem_map] at hp
  obtain ⟨i, _, rfl⟩ := hp
  exact ⟨vinylChannel_bounds _ _ hr.1 hr.2 (vinylIntensity_nonneg _ _)
      (vinylIntensity_le_one _ _),
    vinylChannel_bounds _ _ hg.1 hg.2 (vinylIntensity_nonneg _ _)
      (vinylIntensity_le_one _ _),
    vinylChannel_bounds _ _ hb.1 hb.2 (vinylIntensity_nonneg _ _)
      (vinylIntensity_le_one _ _)⟩

/-- Witness for C7 at `led_count = 3`, phase `0`, color `(10, 20, 30)`. -/
theorem vinyl_channels_in_range_witness :
    1 ≤ 3 ∧ ((0 : ℤ) ≤ 10 ∧ (10 : ℤ) ≤ 255) ∧ ((0 : ℤ) ≤ 20 ∧ (20 : ℤ) ≤ 255) ∧
    ((0 : ℤ) ≤ 30 ∧ (30 : ℤ) ≤ 255) ∧
    ∀ p ∈ vinylLedData 3 0 (10, 20, 30),
      (0 ≤ p.2.1 ∧ p.2.1 ≤ 255) ∧ (0 ≤ p.2.2.1 ∧ p.2.2.1 ≤ 255) ∧
        (0 ≤ p.2.2.2 ∧ p.2.2.2 ≤ 255) :=
  ⟨by decide, by decide, by decide, by decide,
   vinyl_channels_in_range 3 0 (10, 20, 30) (by decide) (by decide) (by decide) (by decide)⟩

lemma not_progress_selectable (cfg : Config) (st : PlayerState)
    (hp : cfg.progress_enabled = false ∨ st.duration.getD 0 ≤ 0) :
    ¬(cfg.progress_enabled ∧ 0 < st.duration.getD 0) := by
  rcases hp with h | h
  · simp [h]
  · exact fun hc => absurd hc.2 (not_lt.mpr h)

/-- Claim C6: when the status is `pause` and the progress effect is not
selectable (disabled, or no positive duration), the tick dispatches
exactly one command: power on at a quarter of the configured brightness
(floor division); in particular no clear and no power-off is issued. -/
theorem pause_dim_quarter_brightness (env : Cmd → Bool) (cfg : Config)
    (s : LoopState) (st : PlayerState) (hst : st.status = some "pause")
    (hp : cfg.progress_enabled = false ∨ st.duration.getD 0 ≤ 0) :
    (tick env cfg s (some st)).2 = [Cmd.setState true (some (cfg.brightness / 4))] := by
  have hns := not_progress_selectable cfg st hp
  simp [tick, hst, hns]

/-- Witness for C6: paused player, progress bar disabled. -/
theorem pause_dim_quarter_brightness_witness :
    (⟨some "pause", some 0, some 100⟩ : PlayerState).status = some "pause" ∧
    (tick (fun _ => true) ⟨10, 100, false, (255, 0, 0), true, (0, 0, 255), 0, 1⟩
        ⟨0, none⟩ (some ⟨some "pause", some 0, some 100⟩)).2 =
      [Cmd.setState true (some (100 / 4))] :=
  ⟨rfl,
   pause_dim_quarter_brightness (fun _ => true)
     ⟨10, 100, false, (255, 0, 0), true, (0, 0, 255), 0, 1⟩ ⟨0, none⟩
     ⟨some "pause", some 0, some 100⟩ rfl (Or.inl rfl)⟩

/-- Claim C9: a successful poll whose state has no `status` field is
handled exactly as if the status were `stop`: the tick is equal to the
tick on the same state with `status = "stop"`, and its one command clears
all LEDs. -/
theorem missing_status_treated_as_stop (env : Cmd → Bool) (cfg : Config)
    (s : LoopState) (st : PlayerState) (h : st.status = none) :
    tick env cfg s (some st) = tick env cfg s (some { st with status := some "stop" }) ∧
    (tick env cfg s (some st)).2 = [clear_leds cfg.led_count] := by
  constructor
  · simp [tick, h]
  · simp [tick, h]

/-- Witness for C9: a poll result carrying only `seek` and `duration`. -/
theorem missing_status_treated_as_stop_witness :
    (⟨none, some 5, some 100⟩ : PlayerState).status = none ∧
    (tick (fun _ => true) ⟨10, 100, true, (255, 0, 0), true, (0, 0, 255), 0, 1⟩
          ⟨0, none⟩ (some ⟨none, some 5, some 100⟩) =
        tick (fun _ => true) ⟨10, 100, true, (255, 0, 0), true, (0, 0, 255), 0, 1⟩
          ⟨0, none⟩ (some ⟨some "stop", some 5, some 100⟩) ∧
      (tick (fun _ => true) ⟨10, 100, true, (255, 0, 0), true, (0, 0, 255), 0, 1⟩
          ⟨0, none⟩ (some ⟨none, some 5, some 100⟩)).2 = [clear_leds 10]) :=
  ⟨rfl,
   missing_status_treated_as_stop (fun _ => true)
     ⟨10, 100, true, (255, 0, 0), true, (0, 0, 255), 0, 1⟩ ⟨0, none⟩
     ⟨none, some 5, some 100⟩ rfl⟩

/-- Counterexample to claim C3: with a playing player, the progress bar
disabled and vinyl rotation disabled, the tick dispatches no command at
all — in particular no command turning the LEDs off — contrary to the
claim that an `Off` command is dispatched that tick. -/
theorem play_off_counterexample :
    (tick (fun _ => true) ⟨10, 100, false, (255, 0, 0), false, (0, 0, 255), 0, 1⟩
        ⟨0, none⟩ (some ⟨some "play", some 5000, some 100⟩)).2 = [] := by
  rfl

/-- Amended claim C3: when the status is `play`, the progress effect is
not selectable and vinyl rotation is disabled, the tick dispatches no
command: the LEDs are simply left in their previous state. -/
theorem play_no_effect_dispatches_nothing (env : Cmd → Bool) (cfg : Config)
    (s : LoopState) (st : PlayerState) (hst : st.status = some "play")
    (hp : cfg.progress_enabled = false ∨ st.duration.getD 0 ≤ 0)
    (hv : cfg.vinyl_enabled = false) :
    (tick env cfg s (some st)).2 = [] := by
  have hns := not_progress_selectable cfg st hp
  simp [tick, hst, hns, hv]

/-- Witness for the amended C3 at the counterexample's configuration. -/
theorem play_no_effect_dispatches_nothing_witness :
    (⟨some "play", some 5000, some 100⟩ : PlayerState).status = some "play" ∧
    (tick (fun _ => false) ⟨10, 100, false, (255, 0, 0), false, (0, 0, 255), 0, 1⟩
        ⟨3, some "stop"⟩ (some ⟨some "play", some 5000, some 100⟩)).2 = [] :=
  ⟨rfl,
   play_no_effect_dispatches_nothing (fun _ => false)
     ⟨10, 100, false, (255, 0, 0), false, (0, 0, 255), 0, 1⟩ ⟨3, some "stop"⟩
     ⟨some "play", some 5000, some 100⟩ rfl (Or.inl rfl) rfl⟩

/-- Claim C4: when the status is `play`, the progress bar is enabled but
`duration = 0`, the tick behaves exactly as if the progress bar were
disabled: it falls through to vinyl rotation when that is enabled and to
nothing otherwise, so the progress renderer (and its `duration <= 0`
error branch) is never reached from the loop. -/
theorem play_zero_duration_skips_progress (env : Cmd → Bool) (cfg : Config)
    (s : LoopState) (st : PlayerState) (hst : st.status = some "play")
    (hd : st.duration.getD 0 = 0) (_hp : cfg.progress_enabled = true) :
    tick env cfg s (some st) =
      tick env { cfg with progress_enabled := false } s (some st) ∧
    (tick env cfg s (some st)).2 =
      (if cfg.vinyl_enabled then
        [Cmd.setIndividualLeds (vinylLedData cfg.led_count
          ((s.rotation_offset + 1) % cfg.led_count) cfg.vinyl_color)]
      else []) := by
  have hns : ¬(cfg.progress_enabled ∧ 0 < st.duration.getD 0) := by
    intro hc
    rw [hd] at hc
    exact lt_irrefl 0 hc.2
  constructor
  · simp [tick, hst, hns]
  · by_cases hv : cfg.vinyl_enabled <;>
      simp [tick, hst, hns, hv, apply_vinyl_rotation, recordStatus_rotation_offset]

/-- Witness for C4: playing, progress bar enabled, `duration = 0`, vinyl
rotation enabled. -/
theorem play_zero_duration_skips_progress_witness :
    (⟨some "play", some 5000, some 0⟩ : PlayerState).status = some "play" ∧
    ((⟨some "play", some 5000, some 0⟩ : PlayerState).duration.getD 0 = 0) ∧
    (tick (fun _ => true) ⟨10, 100, true, (255, 0, 0), true, (0, 0, 255), 0, 1⟩
          ⟨4, some "play"⟩ (some ⟨some "play", some 5000, some 0⟩) =
        tick (fun _ => true) ⟨10, 100, false, (255, 0, 0), true, (0, 0, 255), 0, 1⟩
          ⟨4, some "play"⟩ (some ⟨some "play", some 5000, some 0⟩) ∧
      (tick (fun _ => true) ⟨10, 100, true, (255, 0, 0), true, (0, 0, 255), 0, 1⟩
          ⟨4, some "play"⟩ (some ⟨some "play", some 5000, some 0⟩)).2 =
        (if true then [Cmd.setIndividualLeds (vinylLedData 10 ((4 + 1) % 10) (0, 0, 255))]
        else [])) :=
  ⟨rfl, rfl,
   play_zero_duration_skips_progress (fun _ => true)
     ⟨10, 100, true, (255, 0, 0), true, (0, 0, 255), 0, 1⟩ ⟨4, some "play"⟩
     ⟨some "play", some 5000, some 0⟩ rfl rfl rfl⟩
